import Mathlib

/-!
# Popup controller of the calendar extension (`chrome_extension/popup.js`)

A shallow embedding of the popup script.  The script is event driven: every
handler runs synchronously up to its next `await`, where it is suspended until
the awaited promise settles.  Each handler is therefore embedded as

* a function for its synchronous prefix, returning the new state and, when the
  handler is suspended, the continuation that is waiting, and
* `resumeCont`, which runs a continuation from the value its promise settled
  with up to the next `await` or to the end of the handler.

The browser is the environment: what a fetch, the identity service or
`response.json()` settle with is an input of the model.  Every request the
script issues is recorded in `State.calls`, every `setTimeout(window.close, _)`
in `State.timers`.  Console output is not modelled.
-/

namespace Popup

/-! ## Values -/

/-- JSON values, as held by `chrome.storage.local` and as produced by
`response.json()`.  Numbers are integers: the script does no arithmetic. -/
inductive Json where
  | null
  | bool (b : Bool)
  | num (n : Int)
  | str (s : String)
  | arr (items : List Json)
  | obj (members : List (String × Json))

/-- JavaScript truthiness, as tested by `if (result.userId)`. -/
def Json.truthy : Json → Bool
  | .null => false
  | .bool b => b
  | .num n => n != 0
  | .str s => s.data != []
  | .arr _ => true
  | .obj _ => true

/-- Property read `data.name` on a parsed JSON value: reading a property of
`null` throws a `TypeError` (the message is V8's), an object yields its member
(the last one of that name, as `JSON.parse` keeps it) or `undefined`, and
every other value yields `undefined` for a name that is not built in. -/
def Json.getMember (data : Json) (name : String) : Except String (Option Json) :=
  match data with
  | .null => .error ("Cannot read properties of null (reading '" ++ name ++ "')")
  | .obj members => .ok ((members.reverse.find? (fun m => m.1 == name)).map Prod.snd)
  | _ => .ok none

/-- What an awaited promise settles with: a value, or a rejection whose reason
is an `Error` carrying `message`. -/
inductive Settled (α : Type) where
  | fulfilled (value : α)
  | rejected (message : String)

/-- The part of a fetch `Response` the script looks at. -/
structure Response where
  ok : Bool

/-- The object `chrome.identity.getAuthToken` resolves with; the script reads
its `token` member. -/
structure TokenResult where
  token : String

/-- A request made to the browser: a fetch, or a call of the identity service. -/
inductive Call where
  | fetch (method : String) (url : String) (body : Option Json)
  | getAuthToken (interactive : Bool)

/-- The extension's local storage, `chrome.storage.local`. -/
abbrev Storage := String → Option Json

/-- Storing one member, `chrome.storage.local.set` of an object with the single
member `key`; a member whose value is `undefined` is not written. -/
def Storage.set (st : Storage) (key : String) (value : Option Json) : Storage :=
  match value with
  | some v => fun k => if k = key then some v else st k
  | none => st

/-- Removing a key, `chrome.storage.local.remove(key)`. -/
def Storage.remove (st : Storage) (key : String) : Storage :=
  fun k => if k = key then none else st k

/-! ## State -/

/-- The state of one popup instance together with the extension storage. -/
structure State where
  /-- the module-level `let userId` -/
  userId : Json
  /-- the busy flag, `let isProcessing` of the `DOMContentLoaded` handler -/
  isProcessing : Bool
  /-- the text of the status element, `statusDiv.textContent` -/
  statusText : String
  /-- the class of the status element, `statusDiv.className` -/
  statusClass : String
  /-- the `disabled` flag of each `button` element of the document -/
  buttons : List Bool
  /-- the contents of the question field, `questionTextarea.value` -/
  question : String
  /-- whether `dragZone` carries the class `dragover` -/
  dragover : Bool
  /-- the extension storage, `chrome.storage.local` -/
  storage : Storage
  /-- every fetch and identity request issued so far, oldest first -/
  calls : List Call
  /-- delays of the pending `setTimeout(() => window.close(), _)` -/
  timers : List Nat

/-- The helper `updateStatus(message, type)`. -/
def updateStatus (message type : String) (s : State) : State :=
  { s with statusText := message, statusClass := "status-" ++ type }

/-- The helper `setButtonsState(disabled)`. -/
def setButtonsState (disabled : Bool) (s : State) : State :=
  { s with buttons := s.buttons.map (fun _ => disabled) }

/-- Records a request. -/
def issue (c : Call) (s : State) : State :=
  { s with calls := s.calls ++ [c] }

/-! ## Strings -/

/-- The code points `String.prototype.trim` removes: ECMAScript `WhiteSpace`
and `LineTerminator`. -/
def isJsWhitespace (c : Char) : Bool :=
  let n := c.toNat
  n == 0x09 || n == 0x0A || n == 0x0B || n == 0x0C || n == 0x0D || n == 0x20 ||
  n == 0xA0 || n == 0x1680 || (0x2000 ≤ n && n ≤ 0x200A) || n == 0x2028 ||
  n == 0x2029 || n == 0x202F || n == 0x205F || n == 0x3000 || n == 0xFEFF

/-- The string `s.trim()`. -/
def jsTrim (s : String) : String :=
  String.mk ((s.data.dropWhile isJsWhitespace).reverse.dropWhile isJsWhitespace).reverse

/-- The test `s.endsWith(suffix)`. -/
def endsWith (s suffix : String) : Bool :=
  suffix.data.isSuffixOf s.data

/-- The string `s.substr(start, length)`. -/
def substr (s : String) (start length : Nat) : String :=
  String.mk ((s.data.drop start).take length)

/-- The digits and lower-case letters, the characters of a number written in
base 36. -/
def isBase36 (c : Char) : Bool :=
  ('0' ≤ c && c ≤ '9') || ('a' ≤ c && c ≤ 'z')

/-! ## Requests -/

/-- The health check both operations start with. -/
def healthCall : Call :=
  .fetch "GET" "http://127.0.0.1:8000/health" none

/-- The interactive token request. -/
def tokenCall : Call :=
  .getAuthToken true

/-- The fetch of `processEvents`; its body has the members `token` (the
`token` member of the identity result) and `days`. -/
def processEventsCall (token : TokenResult) (days : Int) : Call :=
  .fetch "POST" "http://127.0.0.1:8000/process-events"
    (some (.obj [("token", .str token.token), ("days", .num days)]))

/-- The fetch of `askQuestion`. -/
def askLlmCall (token : TokenResult) (question : String) (userId : Json) : Call :=
  .fetch "POST" "http://127.0.0.1:8000/ask-llm"
    (some (.obj [("token", .str token.token), ("question", .str question),
                 ("days", .num 30), ("user_id", userId)]))

/-- The fetch of the clear-conversation button. -/
def clearConversationCall (userId : Json) : Call :=
  .fetch "POST" "http://127.0.0.1:8000/clear-conversation"
    (some (.obj [("user_id", userId)]))

/-! ## Handlers -/

/-- A handler suspended at an `await` (or, for `storageGet`, a callback the
browser has yet to call). -/
inductive Cont where
  /-- in `processEvents` at `await fetch('.../health')` -/
  | peHealth (days : Int)
  /-- in `processEvents` at `await chrome.identity.getAuthToken(...)` -/
  | peToken (days : Int)
  /-- in `processEvents` at `await fetch('.../process-events', ...)` -/
  | pePost
  /-- in `processEvents` at `await response.json()` -/
  | peJson
  /-- in `askQuestion` at `await fetch('.../health')` -/
  | aqHealth (question : String)
  /-- in `askQuestion` at `await chrome.identity.getAuthToken(...)` -/
  | aqToken (question : String)
  /-- in `askQuestion` at `await fetch('.../ask-llm', ...)` -/
  | aqPost
  /-- in `askQuestion` at `await response.json()` -/
  | aqJson
  /-- the clear button's handler at `await fetch('.../clear-conversation', ...)` -/
  | clearPost
  /-- the callback passed to `chrome.storage.local.get(['userId'], ...)` -/
  | storageGet

/-- What the browser hands to a suspended handler. -/
inductive Arrival where
  | response (r : Settled Response)
  | token (t : Settled (Option TokenResult))
  | json (j : Settled Json)
  /-- the storage callback fires; `random` is `Math.random().toString(36)` -/
  | storageResult (random : String)

/-- The `catch` and `finally` blocks of `processEvents` and `askQuestion`. -/
def catchFinally (message : String) (s : State) : State :=
  setButtonsState false { updateStatus message "error" s with isProcessing := false }

/-- The `finally` block of `processEvents` and `askQuestion`. -/
def finallyBlock (s : State) : State :=
  setButtonsState false { s with isProcessing := false }

/-- The function `processEvents(days)` up to its first `await`. -/
def processEvents (days : Int) (s : State) : State × Option Cont :=
  if s.isProcessing then (s, none)
  else
    let s := { s with isProcessing := true }
    let s := setButtonsState true s
    let s := updateStatus "Processing your request..." "processing" s
    (issue healthCall s, some (.peHealth days))

/-- The function `askQuestion()` up to its first `await`. -/
def askQuestion (s : State) : State × Option Cont :=
  if s.isProcessing then (s, none)
  else
    let question := jsTrim s.question
    if question.data.isEmpty then
      (updateStatus "Please enter a question" "error" s, none)
    else
      let s := { s with isProcessing := true }
      let s := setButtonsState true s
      let s := updateStatus "Processing your question..." "processing" s
      (issue healthCall s, some (.aqHealth question))

/-- The function `handleFiles(files)`; a file is given by its name. -/
def handleFiles (files : List String) (s : State) : State :=
  match files with
  | [] => s
  | file :: _ =>
    if endsWith file ".ics" || endsWith file ".csv" then
      updateStatus "File upload feature coming soon!" "processing" s
    else
      updateStatus "Please upload .ics or .csv files only" "error" s

/-- The click handler of the clear-conversation button up to its `await`. -/
def clearClick (s : State) : State × Option Cont :=
  (issue (clearConversationCall s.userId) s, some .clearPost)

/-- The identifier made when none is stored:
`'user_' + Math.random().toString(36).substr(2, 9)`, where `random` is
`Math.random().toString(36)`. -/
def generateUserId (random : String) : String :=
  "user_" ++ substr random 2 9

/-- The callback of `chrome.storage.local.get(['userId'], ...)`. -/
def storageGetCallback (random : String) (s : State) : State :=
  match s.storage "userId" with
  | some v =>
    if v.truthy then { s with userId := v }
    else
      let s := { s with userId := .str (generateUserId random) }
      { s with storage := s.storage.set "userId" (some s.userId) }
  | none =>
    let s := { s with userId := .str (generateUserId random) }
    { s with storage := s.storage.set "userId" (some s.userId) }

/-- Runs the suspended handler `k` from what its promise settled with, up to
the next `await` or the end of the handler.  `none` when the arrival is not of
the kind `k` waits for. -/
def resumeCont (k : Cont) (a : Arrival) (s : State) : Option (State × Option Cont) :=
  match k, a with
  | .peHealth days, .response r =>
    match r with
    | .rejected m => some (catchFinally m s, none)
    | .fulfilled healthResponse =>
      if !healthResponse.ok then some (catchFinally "Server is not running" s, none)
      else some (issue tokenCall s, some (.peToken days))
  | .peToken days, .token t =>
    match t with
    | .rejected m => some (catchFinally m s, none)
    | .fulfilled none => some (catchFinally "Failed to get authentication token" s, none)
    | .fulfilled (some token) => some (issue (processEventsCall token days) s, some .pePost)
  | .pePost, .response r =>
    match r with
    | .rejected m => some (catchFinally m s, none)
    | .fulfilled response =>
      if !response.ok then some (catchFinally "Failed to process events" s, none)
      else some (s, some .peJson)
  | .peJson, .json j =>
    match j with
    | .rejected m => some (catchFinally m s, none)
    | .fulfilled _ =>
      let s := updateStatus "Events processed successfully! Check your Telegram." "success" s
      let s := { s with timers := s.timers ++ [3000] }
      some (finallyBlock s, none)
  | .aqHealth question, .response r =>
    match r with
    | .rejected m => some (catchFinally m s, none)
    | .fulfilled healthResponse =>
      if !healthResponse.ok then some (catchFinally "Server is not running" s, none)
      else some (issue tokenCall s, some (.aqToken question))
  | .aqToken question, .token t =>
    match t with
    | .rejected m => some (catchFinally m s, none)
    | .fulfilled none => some (catchFinally "Failed to get authentication token" s, none)
    | .fulfilled (some token) =>
      some (issue (askLlmCall token question s.userId) s, some .aqPost)
  | .aqPost, .response r =>
    match r with
    | .rejected m => some (catchFinally m s, none)
    | .fulfilled response =>
      if !response.ok then some (catchFinally "Failed to process question" s, none)
      else some (s, some .aqJson)
  | .aqJson, .json j =>
    match j with
    | .rejected m => some (catchFinally m s, none)
    | .fulfilled data =>
      match data.getMember "conversation_history" with
      | .error m => some (catchFinally m s, none)
      | .ok history =>
        let s := { s with storage := s.storage.set "conversationHistory" history }
        let s := updateStatus "Question answered! Check your Telegram." "success" s
        let s := { s with question := "" }
        let s := { s with timers := s.timers ++ [3000] }
        some (finallyBlock s, none)
  | .clearPost, .response r =>
    match r with
    | .rejected _ => some (updateStatus "Failed to clear conversation history" "error" s, none)
    | .fulfilled _ =>
      let s := { s with storage := s.storage.remove "conversationHistory" }
      some (updateStatus "Conversation history cleared" "success" s, none)
  | .storageGet, .storageResult random => some (storageGetCallback random s, none)
  | _, _ => none

/-! ## Running one operation to its end -/

/-- Feeds the arrivals, in order, to a handler that may be suspended, until it
has finished or the arrivals are used up. -/
def drive : List Arrival → State × Option Cont → State × Option Cont
  | _, (s, none) => (s, none)
  | [], (s, some k) => (s, some k)
  | a :: rest, (s, some k) =>
    match resumeCont k a s with
    | some r => drive rest r
    | none => (s, some k)

/-- What the browser answers to the four awaits of `processEvents` or of
`askQuestion`, in the order they are reached. -/
structure Answers where
  health : Settled Response
  token : Settled (Option TokenResult)
  post : Settled Response
  json : Settled Json

/-- The answers as arrivals. -/
def Answers.arrivals (e : Answers) : List Arrival :=
  [.response e.health, .token e.token, .response e.post, .json e.json]

/-! ## The popup as a transition system -/

/-- A popup between two turns of the event loop: its state and the handlers
that are suspended. -/
structure Machine where
  st : State
  pending : List Cont

/-- What the page holds before the script runs. -/
structure Page where
  statusText : String
  statusClass : String
  buttons : List Bool
  question : String

/-- The `DOMContentLoaded` handler: asks the storage for `userId`, sets
`isProcessing` to `false` and appends the clear-conversation button. -/
def load (page : Page) (storage : Storage) : Machine :=
  { st :=
      { userId := .null
        isProcessing := false
        statusText := page.statusText
        statusClass := page.statusClass
        buttons := page.buttons ++ [false]
        question := page.question
        dragover := false
        storage := storage
        calls := []
        timers := [] }
    pending := [.storageGet] }

/-- A turn of the event loop. -/
inductive Event where
  /-- a click on a day button: `processEvents(parseInt(days))` -/
  | clickDays (days : Int)
  /-- a click on the ask button, or Enter without Shift in the question field -/
  | ask
  /-- the user edits the question field -/
  | input (text : String)
  /-- a click on the clear-conversation button -/
  | clickClear
  /-- a `dragover` on the drop zone -/
  | dragover
  /-- a `dragleave` on the drop zone -/
  | dragleave
  /-- a `drop` on the drop zone -/
  | drop (files : List String)
  /-- a choice made in the file picker -/
  | pick (files : List String)
  /-- the promise the `i`-th suspended handler waits for settles -/
  | resume (i : Nat) (a : Arrival)

/-- Whether the continuation belongs to `processEvents` or `askQuestion`. -/
def Cont.isGated : Cont → Bool
  | .peHealth _ | .peToken _ | .pePost | .peJson => true
  | .aqHealth _ | .aqToken _ | .aqPost | .aqJson => true
  | .clearPost | .storageGet => false

/-- The machine after a handler ran its synchronous prefix. -/
def spawn (pending : List Cont) (r : State × Option Cont) : Machine :=
  match r.2 with
  | some k => { st := r.1, pending := pending ++ [k] }
  | none => { st := r.1, pending := pending }

/-- One turn of the event loop.  Clicks are accepted whatever the `disabled`
flag of the button is. -/
def step (m : Machine) : Event → Machine
  | .clickDays days => spawn m.pending (processEvents days m.st)
  | .ask => spawn m.pending (askQuestion m.st)
  | .input text => { m with st := { m.st with question := text } }
  | .clickClear => spawn m.pending (clearClick m.st)
  | .dragover => { m with st := { m.st with dragover := true } }
  | .dragleave => { m with st := { m.st with dragover := false } }
  | .drop files => { m with st := handleFiles files { m.st with dragover := false } }
  | .pick files => { m with st := handleFiles files m.st }
  | .resume i a =>
    match m.pending.get? i with
    | none => m
    | some k =>
      match resumeCont k a m.st with
      | none => m
      | some (s, none) => { st := s, pending := m.pending.eraseIdx i }
      | some (s, some k2) => { st := s, pending := m.pending.set i k2 }

/-- The machine after the events, in order. -/
def run (m : Machine) (events : List Event) : Machine :=
  events.foldl step m

/-- The number of invocations of `processEvents` or `askQuestion` that are past
the busy guard and have not finished. -/
def gatedCount (m : Machine) : Nat :=
  (m.pending.filter Cont.isGated).length

/-! ## Successive popups -/

/-- Opens a popup on `storage` and lets its storage callback run. -/
def openPopup (page : Page) (random : String) (storage : Storage) : State :=
  storageGetCallback random (load page storage).st

/-- Opens one popup after the other, each on the storage the previous one
left; returns the `userId` of each and the storage at the end. -/
def openPopups (page : Page) : List String → Storage → List Json × Storage
  | [], storage => ([], storage)
  | random :: rest, storage =>
    let s := openPopup page random storage
    let r := openPopups page rest s.storage
    (s.userId :: r.1, r.2)

/-- The invariant of the busy flag: the number of suspended invocations of
`processEvents` and `askQuestion` is one when `isProcessing` is true and zero
otherwise. -/
def BusyInv (m : Machine) : Prop :=
  gatedCount m = if m.st.isProcessing then 1 else 0

/-! ## Sample inputs -/

/-- A page with the three day buttons and the ask button, all enabled. -/
def samplePage : Page :=
  { statusText := "", statusClass := "", buttons := [false, false, false, false],
    question := "" }

/-- A storage without any key. -/
def emptyStorage : Storage := fun _ => none

/-- A freshly loaded popup on an empty storage. -/
def freshState : State := (load samplePage emptyStorage).st

/-- The popup after a click on the 10-day button, while the health check is
under way. -/
def busyState : State := (processEvents 10 freshState).1

/-- A fresh popup in which the user has typed a question. -/
def askState : State := { freshState with question := "  What is on today? " }

/-- A popup whose storage holds a conversation history. -/
def historyState : State :=
  { freshState with
      storage := emptyStorage.set "conversationHistory" (some (.arr [.str "hello"])) }

/-- A storage in which `userId` holds the empty string. -/
def emptyIdStorage : Storage := emptyStorage.set "userId" (some (.str ""))

/-- A storage in which `userId` holds an identifier made by an earlier popup. -/
def knownIdStorage : Storage := emptyStorage.set "userId" (some (.str "user_k3x9q0a1z"))

/-! ## Lemmas -/

theorem filter_length_set {α : Type} (p : α → Bool) (l : List α) (i : Nat) (k k2 : α)
    (h : l[i]? = some k) (hk : p k2 = p k) :
    ((l.set i k2).filter p).length = (l.filter p).length := by
  induction l generalizing i with
  | nil => simp at h
  | cons x xs ih =>
    cases i with
    | zero =>
      simp at h
      subst h
      simp only [List.set, List.filter_cons, hk]
      split <;> simp
    | succ n =>
      simp at h
      simp only [List.set, List.filter_cons]
      split <;> simp [ih n h]

theorem filter_length_eraseIdx {α : Type} (p : α → Bool) (l : List α) (i : Nat) (k : α)
    (h : l[i]? = some k) :
    ((l.eraseIdx i).filter p).length + (if p k then 1 else 0) = (l.filter p).length := by
  induction l generalizing i with
  | nil => simp at h
  | cons x xs ih =>
    cases i with
    | zero =>
      simp at h
      subst h
      simp only [List.eraseIdx, List.filter_cons]
      split <;> simp
    | succ n =>
      simp at h
      have := ih n h
      simp only [List.eraseIdx, List.filter_cons]
      split <;> (try simp only [List.length_cons]) <;> omega

theorem resumeCont_gated_some (k k2 : Cont) (a : Arrival) (s s2 : State)
    (hk : k.isGated = true) (h : resumeCont k a s = some (s2, some k2)) :
    k2.isGated = true ∧ s2.isProcessing = s.isProcessing := by
  cases k <;> cases a <;> simp [Cont.isGated] at hk <;> simp only [resumeCont] at h <;>
    (repeat' (split at h)) <;>
    simp [catchFinally, finallyBlock, updateStatus, setButtonsState, issue] at h <;>
    (obtain ⟨h1, h2⟩ := h; subst h1; subst h2; simp [Cont.isGated])

theorem resumeCont_gated_none (k : Cont) (a : Arrival) (s s2 : State)
    (hk : k.isGated = true) (h : resumeCont k a s = some (s2, none)) :
    s2.isProcessing = false := by
  cases k <;> cases a <;> simp [Cont.isGated] at hk <;> simp only [resumeCont] at h <;>
    (repeat' (split at h)) <;>
    simp [catchFinally, finallyBlock, updateStatus, setButtonsState, issue] at h <;>
    (subst h; rfl)

theorem storageGetCallback_isProcessing (random : String) (s : State) :
    (storageGetCallback random s).isProcessing = s.isProcessing := by
  unfold storageGetCallback
  split <;> (try split) <;> rfl

theorem resumeCont_ungated (k : Cont) (a : Arrival) (s s2 : State) (r : Option Cont)
    (hk : k.isGated = false) (h : resumeCont k a s = some (s2, r)) :
    r = none ∧ s2.isProcessing = s.isProcessing := by
  cases k <;> cases a <;> simp [Cont.isGated] at hk <;> simp only [resumeCont] at h <;>
    (repeat' (split at h)) <;>
    simp [updateStatus] at h <;>
    (obtain ⟨h1, h2⟩ := h; subst h1; subst h2; simp [storageGetCallback_isProcessing])

theorem resumeCont_gated_none_buttons (k : Cont) (a : Arrival) (s s2 : State)
    (hk : k.isGated = true) (h : resumeCont k a s = some (s2, none)) :
    ∀ b ∈ s2.buttons, b = false := by
  cases k <;> cases a <;> simp [Cont.isGated] at hk <;> simp only [resumeCont] at h <;>
    (repeat' (split at h)) <;>
    simp [catchFinally, finallyBlock, updateStatus, setButtonsState, issue] at h <;>
    (subst h; simp)

theorem drive_gated_finished (as : List Arrival) (s : State) (k : Cont)
    (hk : k.isGated = true) (h : (drive as (s, some k)).2 = none) :
    (drive as (s, some k)).1.isProcessing = false ∧
    ∀ b ∈ (drive as (s, some k)).1.buttons, b = false := by
  induction as generalizing s k with
  | nil => simp [drive] at h
  | cons a rest ih =>
    simp only [drive] at h ⊢
    obtain ⟨x, hr⟩ : ∃ x, resumeCont k a s = x := ⟨_, rfl⟩
    simp only [hr] at h ⊢
    cases x with
    | none => simp at h
    | some r =>
      obtain ⟨s2, r2⟩ := r
      cases r2 with
      | none =>
        simp only [drive]
        exact ⟨resumeCont_gated_none k a s s2 hk hr,
          resumeCont_gated_none_buttons k a s s2 hk hr⟩
      | some k2 =>
        exact ih s2 k2 (resumeCont_gated_some k k2 a s s2 hk hr).1 h

theorem jsTrim_blank (q : String) (h : ∀ c ∈ q.data, isJsWhitespace c = true) :
    (jsTrim q).data = [] := by
  have h1 : q.data.dropWhile isJsWhitespace = [] := List.dropWhile_eq_nil_iff.mpr h
  simp [jsTrim, h1]

theorem openPopup_truthy (page : Page) (random : String) (storage : Storage) (v : Json)
    (hv : storage "userId" = some v) (ht : v.truthy = true) :
    (openPopup page random storage).userId = v ∧
    (openPopup page random storage).storage = storage := by
  simp [openPopup, storageGetCallback, load, hv, ht]

theorem openPopups_truthy (page : Page) (randoms : List String) (storage : Storage) (v : Json)
    (hv : storage "userId" = some v) (ht : v.truthy = true) :
    openPopups page randoms storage = (List.replicate randoms.length v, storage) := by
  induction randoms with
  | nil => rfl
  | cons r rest ih =>
    obtain ⟨h1, h2⟩ := openPopup_truthy page r storage v hv ht
    simp only [openPopups, h1, h2, ih, List.length_cons, List.replicate_succ]

theorem busyInv_load (page : Page) (storage : Storage) : BusyInv (load page storage) := by
  simp [BusyInv, gatedCount, load, Cont.isGated]

theorem busyInv_step (m : Machine) (e : Event) (h : BusyInv m) : BusyInv (step m e) := by
  unfold BusyInv gatedCount at *
  cases e with
  | clickDays days =>
    simp only [step, processEvents, spawn]
    cases hp : m.st.isProcessing <;> simp_all [setButtonsState, updateStatus, issue, Cont.isGated]
  | ask =>
    simp only [step, askQuestion, spawn]
    cases hp : m.st.isProcessing
    · by_cases hq : (jsTrim m.st.question).data.isEmpty = true <;>
        simp_all [setButtonsState, updateStatus, issue, Cont.isGated]
    · simp_all
  | input text => simpa [step] using h
  | clickClear => simpa [step, clearClick, spawn, issue, Cont.isGated] using h
  | dragover => simpa [step] using h
  | dragleave => simpa [step] using h
  | drop files =>
    cases files with
    | nil => simpa [step, handleFiles] using h
    | cons f rest =>
      simp only [step, handleFiles]
      split <;> simpa [updateStatus] using h
  | pick files =>
    cases files with
    | nil => simpa [step, handleFiles] using h
    | cons f rest =>
      simp only [step, handleFiles]
      split <;> simpa [updateStatus] using h
  | resume i a =>
    simp only [step, List.get?_eq_getElem?]
    cases hi : m.pending[i]? with
    | none => simpa using h
    | some k =>
      obtain ⟨x, hr⟩ : ∃ x, resumeCont k a m.st = x := ⟨_, rfl⟩
      simp only [hr]
      cases x with
      | none => simpa using h
      | some r =>
        obtain ⟨s2, r2⟩ := r
        have he := filter_length_eraseIdx Cont.isGated m.pending i k hi
        cases hg : k.isGated
        · obtain ⟨h1, h2⟩ := resumeCont_ungated k a m.st s2 r2 hg hr
          subst h1
          simp only [hg] at he
          simp only [h2]
          simp at he
          omega
        · cases r2 with
          | none =>
            have h2 := resumeCont_gated_none k a m.st s2 hg hr
            simp only [hg] at he
            simp only [h2]
            simp only [↓reduceIte] at he
            simp only [Bool.false_eq_true, ↓reduceIte]
            split at h <;> omega
          | some k2 =>
            obtain ⟨h1, h2⟩ := resumeCont_gated_some k k2 a m.st s2 hg hr
            simp only [h2]
            rw [filter_length_set Cont.isGated m.pending i k k2 hi (by rw [h1, hg])]
            exact h

theorem busyInv_run (events : List Event) (m : Machine) (h : BusyInv m) :
    BusyInv (run m events) := by
  induction events generalizing m with
  | nil => exact h
  | cons e rest ih => exact ih (step m e) (busyInv_step m e h)

/-! ## Theorems -/


/-- C1: while `isProcessing` is true, `processEvents(days)` and `askQuestion()`
return at once: nothing is suspended, no request is issued, and the state,
storage included, is the one before the call. -/
theorem busy_invocation_is_noop (s : State) (days : Int) (h : s.isProcessing = true) :
    processEvents days s = (s, none) ∧ askQuestion s = (s, none) ∧
    (processEvents days s).1.calls = s.calls ∧ (askQuestion s).1.calls = s.calls := by
  simp [processEvents, askQuestion, h]


/-- C1 at the popup in which a 10-day run is under way. -/
theorem busy_invocation_is_noop_witness :
    busyState.isProcessing = true ∧
    (processEvents 15 busyState = (busyState, none) ∧ askQuestion busyState = (busyState, none) ∧
     (processEvents 15 busyState).1.calls = busyState.calls ∧
     (askQuestion busyState).1.calls = busyState.calls) :=
  ⟨rfl, busy_invocation_is_noop busyState 15 rfl⟩

/-- C2: in every state the popup reaches from its load by UI events and
resumptions of suspended handlers, at most one invocation of `processEvents` or
`askQuestion` is past its busy guard and unfinished, and `isProcessing` is true
exactly when there is one; at load `isProcessing` is false. -/
theorem at_most_one_gated_invocation (page : Page) (storage : Storage) (events : List Event) :
    (load page storage).st.isProcessing = false ∧
    gatedCount (run (load page storage) events) ≤ 1 ∧
    ((run (load page storage) events).st.isProcessing = true ↔
      ∃ k ∈ (run (load page storage) events).pending, k.isGated = true) := by
  have h := busyInv_run events (load page storage) (busyInv_load page storage)
  unfold BusyInv gatedCount at h
  refine ⟨rfl, ?_, ?_, ?_⟩
  · unfold gatedCount
    split at h <;> omega
  · intro hp
    rw [hp] at h
    simp only [↓reduceIte] at h
    have hpos : 0 < ((run (load page storage) events).pending.filter Cont.isGated).length := by
      omega
    obtain ⟨k, hk⟩ := List.exists_mem_of_length_pos hpos
    exact ⟨k, (List.mem_filter.mp hk).1, (List.mem_filter.mp hk).2⟩
  · rintro ⟨k, hk, hg⟩
    have hmem : k ∈ (run (load page storage) events).pending.filter Cont.isGated :=
      List.mem_filter.mpr ⟨hk, hg⟩
    have hpos := List.length_pos_of_mem hmem
    cases hp : (run (load page storage) events).st.isProcessing
    · rw [hp] at h
      simp at h
      simp [h k hk] at hg
    · rfl

/-- C3, refuted as stated: invoked while a run is under way, `processEvents(15)`
returns through its busy guard, and when it has returned `isProcessing` is
still true and the five buttons are still disabled. -/
theorem cleanup_skipped_on_busy_return :
    (drive [] (processEvents 15 busyState)).2 = none ∧
    (drive [] (processEvents 15 busyState)).1.isProcessing = true ∧
    (drive [] (processEvents 15 busyState)).1.buttons = [true, true, true, true, true] := by
  refine ⟨rfl, rfl, rfl⟩

/-- C3, amended: an invocation of `processEvents(days)` made while
`isProcessing` is false finishes whatever the browser answers to its four
awaits, and whenever it has finished, through success or through a thrown
error, `isProcessing` is false and every button is enabled. -/
theorem processEvents_cleanup (s : State) (days : Int) (h : s.isProcessing = false) :
    (∀ e : Answers, (drive e.arrivals (processEvents days s)).2 = none) ∧
    ∀ as : List Arrival, (drive as (processEvents days s)).2 = none →
      (drive as (processEvents days s)).1.isProcessing = false ∧
      ∀ b ∈ (drive as (processEvents days s)).1.buttons, b = false := by
  constructor
  · rintro ⟨eh, et, ep, ej⟩
    simp only [processEvents, h, Answers.arrivals]
    rcases eh with ⟨⟨_ | _⟩⟩ | _ <;> rcases et with (_ | _) | _ <;>
      rcases ep with ⟨⟨_ | _⟩⟩ | _ <;> rcases ej with _ | _ <;>
      simp [drive, resumeCont]
  · intro as hfin
    simp only [processEvents, h] at hfin ⊢
    exact drive_gated_finished as _ _ rfl hfin

/-- C3 at a fresh popup, with the server answering the health check by an
error status. -/
theorem processEvents_cleanup_witness :
    freshState.isProcessing = false ∧
    ((∀ e : Answers, (drive e.arrivals (processEvents 10 freshState)).2 = none) ∧
     ∀ as : List Arrival, (drive as (processEvents 10 freshState)).2 = none →
       (drive as (processEvents 10 freshState)).1.isProcessing = false ∧
       ∀ b ∈ (drive as (processEvents 10 freshState)).1.buttons, b = false) :=
  ⟨rfl, processEvents_cleanup freshState 10 rfl⟩

/-- C4: when `processEvents(days)` is invoked while `isProcessing` is false and
the health check is answered by a response that is not OK, the operation ends
there: the health check is the only request it issues (no token request, no
POST), the status is 'Server is not running' with class 'status-error', no
timer is added, `isProcessing` is false and every button is enabled. -/
theorem health_check_not_ok (s : State) (days : Int) (rest : List Arrival)
    (h : s.isProcessing = false) :
    drive (.response (.fulfilled { ok := false }) :: rest) (processEvents days s) =
      ({ s with
          isProcessing := false
          statusText := "Server is not running"
          statusClass := "status-error"
          buttons := s.buttons.map (fun _ => false)
          calls := s.calls ++ [healthCall] }, none) ∧
    (∀ b ∈ (drive (.response (.fulfilled { ok := false }) :: rest)
        (processEvents days s)).1.buttons, b = false) ∧
    tokenCall ∉ [healthCall] ∧ ∀ t, processEventsCall t days ∉ [healthCall] := by
  refine ⟨?_, ?_, ?_, ?_⟩
  · simp [processEvents, h, drive, resumeCont, catchFinally, updateStatus, setButtonsState,
      issue]
  · simp [processEvents, h, drive, resumeCont, catchFinally, updateStatus, setButtonsState,
      issue]
  · simp [tokenCall, healthCall]
  · simp [processEventsCall, healthCall]

/-- C4 at a fresh popup. -/
theorem health_check_not_ok_witness :
    freshState.isProcessing = false ∧
    (drive (.response (.fulfilled { ok := false }) :: []) (processEvents 10 freshState)).1.statusText
      = "Server is not running" :=
  ⟨rfl, by rw [(health_check_not_ok freshState 10 [] rfl).1]⟩

/-- C5: when the question field is empty or holds only whitespace and
`isProcessing` is false, `askQuestion()` returns at once with the status
'Please enter a question' (class 'status-error') and nothing else changed: no
request is issued, `isProcessing` is still false, and buttons, question field
and storage are as before. -/
theorem blank_question_rejected (s : State) (h : s.isProcessing = false)
    (hq : ∀ c ∈ s.question.data, isJsWhitespace c = true) :
    askQuestion s =
      ({ s with statusText := "Please enter a question", statusClass := "status-error" },
        none) ∧
    (askQuestion s).1.calls = s.calls ∧ (askQuestion s).1.isProcessing = false ∧
    (askQuestion s).1.buttons = s.buttons ∧ (askQuestion s).1.question = s.question ∧
    (askQuestion s).1.storage = s.storage := by
  simp [askQuestion, h, jsTrim_blank s.question hq, updateStatus]

/-- C5 at a fresh popup whose question field holds a space, a tab and a line
feed. -/
theorem blank_question_rejected_witness :
    (askQuestion { freshState with question := " \t\n" }).1.statusText
      = "Please enter a question" ∧
    (askQuestion { freshState with question := " \t\n" }).1.calls = [] :=
  ⟨by rw [(blank_question_rejected { freshState with question := " \t\n" } rfl
      (by decide)).1],
    (blank_question_rejected { freshState with question := " \t\n" } rfl (by decide)).2.1⟩

/-- C6, refuted as stated: with every step of `askQuestion()` succeeding and
the response body being the JSON value `null`, reading `conversation_history`
throws; the question field is not cleared, the status is the error's message
with class 'status-error', nothing is stored and no auto-close is scheduled. -/
theorem null_body_is_an_error :
    (drive [.response (.fulfilled { ok := true }), .token (.fulfilled (some { token := "t" })),
        .response (.fulfilled { ok := true }), .json (.fulfilled .null)]
      (askQuestion askState)).2 = none ∧
    (drive [.response (.fulfilled { ok := true }), .token (.fulfilled (some { token := "t" })),
        .response (.fulfilled { ok := true }), .json (.fulfilled .null)]
      (askQuestion askState)).1.question = "  What is on today? " ∧
    (drive [.response (.fulfilled { ok := true }), .token (.fulfilled (some { token := "t" })),
        .response (.fulfilled { ok := true }), .json (.fulfilled .null)]
      (askQuestion askState)).1.statusText
      = "Cannot read properties of null (reading 'conversation_history')" ∧
    (drive [.response (.fulfilled { ok := true }), .token (.fulfilled (some { token := "t" })),
        .response (.fulfilled { ok := true }), .json (.fulfilled .null)]
      (askQuestion askState)).1.statusClass = "status-error" ∧
    (drive [.response (.fulfilled { ok := true }), .token (.fulfilled (some { token := "t" })),
        .response (.fulfilled { ok := true }), .json (.fulfilled .null)]
      (askQuestion askState)).1.timers = [] ∧
    (drive [.response (.fulfilled { ok := true }), .token (.fulfilled (some { token := "t" })),
        .response (.fulfilled { ok := true }), .json (.fulfilled .null)]
      (askQuestion askState)).1.storage "conversationHistory" = none := by
  refine ⟨rfl, rfl, rfl, rfl, rfl, rfl⟩

/-- C6, amended: when `askQuestion()` runs with `isProcessing` false on a
question that is not blank, the health check is OK, a token is returned, the
POST is OK and the response body is a JSON value other than `null`, then the
operation finishes with the question field empty, the status 'Question
answered! Check your Telegram.' (class 'status-success'), an auto-close
scheduled after 3000 ms and `isProcessing` false; and when the body has a
`conversation_history` member, the storage key `conversationHistory` holds
exactly its value. -/
theorem question_answered (s : State) (token : TokenResult) (data : Json)
    (h : s.isProcessing = false) (hq : (jsTrim s.question).data ≠ []) (hd : data ≠ .null) :
    (drive [.response (.fulfilled { ok := true }), .token (.fulfilled (some token)),
        .response (.fulfilled { ok := true }), .json (.fulfilled data)] (askQuestion s)).2 = none ∧
    (drive [.response (.fulfilled { ok := true }), .token (.fulfilled (some token)),
        .response (.fulfilled { ok := true }), .json (.fulfilled data)] (askQuestion s)).1.question
      = "" ∧
    (drive [.response (.fulfilled { ok := true }), .token (.fulfilled (some token)),
        .response (.fulfilled { ok := true }), .json (.fulfilled data)] (askQuestion s)).1.statusText
      = "Question answered! Check your Telegram." ∧
    (drive [.response (.fulfilled { ok := true }), .token (.fulfilled (some token)),
        .response (.fulfilled { ok := true }), .json (.fulfilled data)] (askQuestion s)).1.statusClass
      = "status-success" ∧
    (drive [.response (.fulfilled { ok := true }), .token (.fulfilled (some token)),
        .response (.fulfilled { ok := true }), .json (.fulfilled data)] (askQuestion s)).1.timers
      = s.timers ++ [3000] ∧
    (drive [.response (.fulfilled { ok := true }), .token (.fulfilled (some token)),
        .response (.fulfilled { ok := true }), .json (.fulfilled data)] (askQuestion s)).1.isProcessing
      = false ∧
    ∀ v, data.getMember "conversation_history" = .ok (some v) →
      (drive [.response (.fulfilled { ok := true }), .token (.fulfilled (some token)),
        .response (.fulfilled { ok := true }), .json (.fulfilled data)] (askQuestion s)).1.storage
        "conversationHistory" = some v := by
  have hq2 : (jsTrim s.question).data.isEmpty = false := by
    cases hl : (jsTrim s.question).data with
    | nil => exact absurd hl hq
    | cons c cs => rfl
  obtain ⟨m, hm⟩ : ∃ m, data.getMember "conversation_history" = .ok m := by
    cases data with
    | null => exact absurd rfl hd
    | obj members => exact ⟨_, rfl⟩
    | bool b => exact ⟨none, rfl⟩
    | num n => exact ⟨none, rfl⟩
    | str t => exact ⟨none, rfl⟩
    | arr items => exact ⟨none, rfl⟩
  simp [askQuestion, h, hq2, drive, resumeCont, hm, finallyBlock, setButtonsState,
    updateStatus, issue, Storage.set]
  intro v hv
  subst hv
  simp

/-- C6 at a fresh popup with a question typed in, the server answering with a
body whose `conversation_history` is a one-element array. -/
theorem question_answered_witness :
    (drive [.response (.fulfilled { ok := true }), .token (.fulfilled (some { token := "t" })),
        .response (.fulfilled { ok := true }),
        .json (.fulfilled (.obj [("conversation_history", .arr [.str "hello"])]))]
      (askQuestion askState)).1.question = "" :=
  (question_answered askState { token := "t" }
    (.obj [("conversation_history", .arr [.str "hello"])]) rfl (by decide)
    (by intro h; cases h)).2.1

/-- C7: `handleFiles` looks at the name of the first file only.  When it ends
with '.ics' or '.csv' the status becomes 'File upload feature coming soon!'
(class 'status-processing'), otherwise 'Please upload .ics or .csv files only'
(class 'status-error'); the other names play no part, and nothing but the
status changes: no request is issued, `isProcessing` and the storage are as
before.  On the empty list the state is left as it is. -/
theorem handleFiles_first_name (file : String) (others others2 : List String) (s : State) :
    handleFiles (file :: others) s =
      (if endsWith file ".ics" || endsWith file ".csv" then
        { s with statusText := "File upload feature coming soon!",
                 statusClass := "status-processing" }
      else
        { s with statusText := "Please upload .ics or .csv files only",
                 statusClass := "status-error" }) ∧
    handleFiles (file :: others) s = handleFiles (file :: others2) s ∧
    (handleFiles (file :: others) s).calls = s.calls ∧
    (handleFiles (file :: others) s).isProcessing = s.isProcessing ∧
    (handleFiles (file :: others) s).storage = s.storage ∧
    handleFiles [] s = s ∧
    (handleFiles ["schedule.ics"] s).statusText = "File upload feature coming soon!" ∧
    (handleFiles ["notes.txt"] s).statusText = "Please upload .ics or .csv files only" := by
  refine ⟨?_, rfl, ?_, ?_, ?_, rfl, ?_, ?_⟩
  · simp only [handleFiles, updateStatus]
    split <;> rfl
  · simp only [handleFiles]
    split <;> rfl
  · simp only [handleFiles]
    split <;> rfl
  · simp only [handleFiles]
    split <;> rfl
  · have h : endsWith "schedule.ics" ".ics" = true := by decide
    simp [handleFiles, h, updateStatus]
  · have h1 : endsWith "notes.txt" ".ics" = false := by decide
    have h2 : endsWith "notes.txt" ".csv" = false := by decide
    simp [handleFiles, h1, h2, updateStatus]

/-- C8, refuted as stated: when the POST to `/clear-conversation` fails (the
fetch rejects), the handler finishes with the key `conversationHistory` still
in the storage. -/
theorem history_kept_when_fetch_rejects :
    (drive [.response (.rejected "Failed to fetch")] (clearClick historyState)).2 = none ∧
    (drive [.response (.rejected "Failed to fetch")] (clearClick historyState)).1.storage
      "conversationHistory" = some (.arr [.str "hello"]) ∧
    (drive [.response (.rejected "Failed to fetch")] (clearClick historyState)).1.statusText
      = "Failed to clear conversation history" := by
  refine ⟨rfl, rfl, rfl⟩

/-- C8, amended: a click on the clear-conversation button issues the POST
whatever `isProcessing` is.  When the POST is answered, with whatever HTTP
status, the key `conversationHistory` is removed from the storage and the
status is 'Conversation history cleared'; when the fetch rejects, the storage
is left as it is and the status is 'Failed to clear conversation history'.  In
both cases the handler leaves `isProcessing` and the buttons' `disabled` flags
alone, and what it does is the same for either value of `isProcessing`. -/
theorem clear_conversation (s : State) (r : Settled Response) (busy : Bool) :
    (drive [.response r] (clearClick s)).2 = none ∧
    (drive [.response r] (clearClick s)).1.isProcessing = s.isProcessing ∧
    (drive [.response r] (clearClick s)).1.buttons = s.buttons ∧
    (drive [.response r] (clearClick s)).1.calls = s.calls ++ [clearConversationCall s.userId] ∧
    (match r with
      | .fulfilled _ =>
        (drive [.response r] (clearClick s)).1.storage = s.storage.remove "conversationHistory" ∧
        (drive [.response r] (clearClick s)).1.storage "conversationHistory" = none ∧
        (drive [.response r] (clearClick s)).1.statusText = "Conversation history cleared" ∧
        (drive [.response r] (clearClick s)).1.statusClass = "status-success"
      | .rejected _ =>
        (drive [.response r] (clearClick s)).1.storage = s.storage ∧
        (drive [.response r] (clearClick s)).1.statusText
          = "Failed to clear conversation history" ∧
        (drive [.response r] (clearClick s)).1.statusClass = "status-error") ∧
    drive [.response r] (clearClick { s with isProcessing := busy }) =
      ({ (drive [.response r] (clearClick s)).1 with isProcessing := busy }, none) := by
  cases r <;>
    simp [drive, clearClick, resumeCont, updateStatus, issue, Storage.remove]

/-- C9, refuted as stated: with the empty string stored under `userId`, the
popup does not take the stored value over; it makes a new identifier and
writes it to the storage. -/
theorem empty_userId_is_regenerated :
    emptyIdStorage "userId" = some (.str "") ∧
    (openPopup samplePage "0.4fzyo82mvyr" emptyIdStorage).userId = .str "user_4fzyo82mv" ∧
    (openPopup samplePage "0.4fzyo82mvyr" emptyIdStorage).storage "userId"
      = some (.str "user_4fzyo82mv") := by
  refine ⟨rfl, rfl, rfl⟩

/-- C9, amended: when the value `v` stored under `userId` is truthy (any
non-empty string is), the popup sets its `userId` to `v` and leaves the
storage as it is, so any number of successive popups all get `v`.  When no
`userId` is stored, or the stored value is falsy, the popup makes the
identifier 'user_' followed by up to nine characters of
`Math.random().toString(36)` past its first two, sets its `userId` to it and
stores it; these characters are base-36 digits whenever that string is '0' or
'0.' followed by base-36 digits. -/
theorem userId_initialisation (page : Page) (storage : Storage) (random : String)
    (randoms : List String) :
    (∀ v, storage "userId" = some v → v.truthy = true →
      (openPopup page random storage).userId = v ∧
      (openPopup page random storage).storage = storage ∧
      openPopups page randoms storage = (List.replicate randoms.length v, storage)) ∧
    ((∀ v, storage "userId" = some v → v.truthy = false) →
      (openPopup page random storage).userId = .str (generateUserId random) ∧
      (openPopup page random storage).storage
        = storage.set "userId" (some (.str (generateUserId random)))) ∧
    (∀ ds : List Char, (random.data = ['0'] ∧ ds = [] ∨ random.data = '0' :: '.' :: ds) →
      (∀ c ∈ ds, isBase36 c = true) →
      generateUserId random = "user_" ++ String.mk (ds.take 9) ∧
      (ds.take 9).length ≤ 9 ∧ ∀ c ∈ ds.take 9, isBase36 c = true) := by
  refine ⟨?_, ?_, ?_⟩
  · intro v hv ht
    exact ⟨(openPopup_truthy page random storage v hv ht).1,
      (openPopup_truthy page random storage v hv ht).2,
      openPopups_truthy page randoms storage v hv ht⟩
  · intro hf
    cases hs : storage "userId" with
    | none => simp [openPopup, storageGetCallback, load, hs]
    | some v => simp [openPopup, storageGetCallback, load, hs, hf v hs]
  · intro ds hform hds
    refine ⟨?_, ?_, ?_⟩
    · rcases hform with ⟨h1, h2⟩ | h1
      · subst h2
        simp [generateUserId, substr, h1]
      · simp [generateUserId, substr, h1]
    · simp [List.length_take]
    · intro c hc
      exact hds c (List.mem_of_mem_take hc)

/-- C9 at a storage that holds an identifier made earlier: three popups in a
row all get it, and the storage is not written. -/
theorem userId_initialisation_witness :
    (openPopup samplePage "0.4fzyo82mvyr" knownIdStorage).userId = .str "user_k3x9q0a1z" ∧
    (openPopup samplePage "0.4fzyo82mvyr" knownIdStorage).storage = knownIdStorage ∧
    openPopups samplePage ["0.1a", "0.zz", "0"] knownIdStorage
      = (List.replicate 3 (.str "user_k3x9q0a1z"), knownIdStorage) :=
  (userId_initialisation samplePage knownIdStorage "0.4fzyo82mvyr" ["0.1a", "0.zz", "0"]).1
    (.str "user_k3x9q0a1z") rfl rfl

/-- C10: invoked while `isProcessing` is false, `processEvents(days)` issues the
health check, then the token request, then the POST, whatever the question
field holds; `askQuestion()` does the same when the question is not blank.
When the health check is OK and the identity service returns no token, the
token request is the last request: no POST is issued, the status is 'Failed to
get authentication token' (class 'status-error'), storage and question field
are as before and `isProcessing` is false.  When a token is returned, the POST
goes to `/process-events` with the body `token`, `days` for
`processEvents(days)`, and to `/ask-llm` with the body `token`, `question`
(the trimmed field), `days` (30), `user_id` (the current `userId`) for
`askQuestion()`, whatever is answered afterwards. -/
theorem health_then_token_then_post (s : State) (days : Int) (token : TokenResult)
    (post : Settled Response) (json : Settled Json) (h : s.isProcessing = false) :
    drive [.response (.fulfilled { ok := true }), .token (.fulfilled none)]
        (processEvents days s) =
      ({ s with
          isProcessing := false
          statusText := "Failed to get authentication token"
          statusClass := "status-error"
          buttons := s.buttons.map (fun _ => false)
          calls := s.calls ++ [healthCall, tokenCall] }, none) ∧
    (drive [.response (.fulfilled { ok := true }), .token (.fulfilled (some token)),
        .response post, .json json] (processEvents days s)).1.calls =
      s.calls ++ [.fetch "GET" "http://127.0.0.1:8000/health" none, .getAuthToken true,
        .fetch "POST" "http://127.0.0.1:8000/process-events"
          (some (.obj [("token", .str token.token), ("days", .num days)]))] ∧
    ((jsTrim s.question).data ≠ [] →
      drive [.response (.fulfilled { ok := true }), .token (.fulfilled none)] (askQuestion s) =
        ({ s with
            isProcessing := false
            statusText := "Failed to get authentication token"
            statusClass := "status-error"
            buttons := s.buttons.map (fun _ => false)
            calls := s.calls ++ [healthCall, tokenCall] }, none) ∧
      (drive [.response (.fulfilled { ok := true }), .token (.fulfilled (some token)),
          .response post, .json json] (askQuestion s)).1.calls =
        s.calls ++ [.fetch "GET" "http://127.0.0.1:8000/health" none, .getAuthToken true,
          .fetch "POST" "http://127.0.0.1:8000/ask-llm"
            (some (.obj [("token", .str token.token), ("question", .str (jsTrim s.question)),
              ("days", .num 30), ("user_id", s.userId)]))]) := by
  refine ⟨?_, ?_, ?_⟩
  · simp [processEvents, h, drive, resumeCont, catchFinally, updateStatus, setButtonsState,
      issue]
  · rcases post with ⟨⟨_ | _⟩⟩ | _ <;> rcases json with _ | _ <;>
      simp [processEvents, h, drive, resumeCont, catchFinally, finallyBlock, updateStatus,
        setButtonsState, issue, healthCall, tokenCall, processEventsCall]
  · intro hq
    have hq2 : (jsTrim s.question).data.isEmpty = false := by
      cases hl : (jsTrim s.question).data with
      | nil => exact absurd hl hq
      | cons c cs => rfl
    refine ⟨?_, ?_⟩
    · simp [askQuestion, h, hq2, drive, resumeCont, catchFinally, updateStatus,
        setButtonsState, issue]
    · rcases post with ⟨⟨_ | _⟩⟩ | _ <;> rcases json with d | _ <;>
        simp [askQuestion, h, hq2, drive, resumeCont, catchFinally, finallyBlock, updateStatus,
          setButtonsState, issue, healthCall, tokenCall, askLlmCall]
      cases hd : d.getMember "conversation_history" <;>
        simp [drive, catchFinally, finallyBlock, updateStatus, setButtonsState]

/-- C10 at a fresh popup: with the question field empty, `processEvents(10)`
sends `token` and `days` to `/process-events`; with a question typed in, the
body of the POST to `/ask-llm` carries the question without its surrounding
blanks. -/
theorem health_then_token_then_post_witness :
    freshState.isProcessing = false ∧ (jsTrim freshState.question).data = [] ∧
    (drive [.response (.fulfilled { ok := true }), .token (.fulfilled (some { token := "t" })),
        .response (.fulfilled { ok := false }), .json (.fulfilled .null)]
        (processEvents 10 freshState)).1.calls =
      freshState.calls ++ [.fetch "GET" "http://127.0.0.1:8000/health" none, .getAuthToken true,
        .fetch "POST" "http://127.0.0.1:8000/process-events"
          (some (.obj [("token", .str "t"), ("days", .num 10)]))] ∧
    (drive [.response (.fulfilled { ok := true }), .token (.fulfilled (some { token := "t" })),
        .response (.fulfilled { ok := false }), .json (.fulfilled .null)]
        (askQuestion askState)).1.calls =
      [.fetch "GET" "http://127.0.0.1:8000/health" none, .getAuthToken true,
        .fetch "POST" "http://127.0.0.1:8000/ask-llm"
          (some (.obj [("token", .str "t"), ("question", .str "What is on today?"),
            ("days", .num 30), ("user_id", .null)]))] :=
  ⟨rfl, rfl,
    (health_then_token_then_post freshState 10 { token := "t" } (.fulfilled { ok := false })
      (.fulfilled .null) rfl).2.1,
    ((health_then_token_then_post askState 10 { token := "t" } (.fulfilled { ok := false })
      (.fulfilled .null) rfl).2.2 (by decide)).2⟩

end Popup
